import Mathlib

/-!
Shallow embedding of `booksdata/parsing.py` (class `BookScraper`) and proofs
about its crawl, fetch and normalization behaviour.

Modelling conventions:
* a fetched page is represented by a `Page` record holding exactly the data the
  Python code extracts from the markup with its BeautifulSoup CSS selectors
  (anchor texts/hrefs, pagination indicator text, product title text, rating
  class token list, attribute table rows);
* the network is a `Site`: a function from request path to either a fetched
  `Page` or a fetch failure (`aiohttp.ClientError` / `ConnectionTimeoutError`);
* an `asyncio.TaskGroup` cohort is all-or-nothing: it is modelled by
  sequencing the per-member results with `exSeq`, which yields the ordered
  list of results when every member succeeds and an error otherwise
  (completion order is irrelevant because results are read back per task);
* Python exceptions are `Except` errors (`CrawlError`); a `try/except*` block
  that catches and logs an error is a `match` that turns the error branch into
  a normal result; exceptions raised in the `else:` clause of a
  `try/except*/else` statement are NOT caught by that statement's handlers,
  which the embedding mirrors by keeping those branches in the error monad;
* Python `str.lower`, `str` slicing and `float()` are modelled on `List Char`
  (`strLower`, `strDrop`, ...) because the inputs involved are ASCII;
  Python floats on the parsed price strings (digits and dots) are modelled
  exactly by rationals.
-/

deriving instance DecidableEq for Except

namespace BooksData

/-- Failure of a single HTTP fetch: `aiohttp.ClientError` (bad status, ...) or
`aiohttp.ConnectionTimeoutError`. -/
inductive FetchError : Type
  | httpStatus
  | timeout
  deriving DecidableEq, Repr

/-- Python exceptions that the crawl code can raise or log, by exception class:
`fetchFail` wraps an uncaught fetch failure, `categoryNotFound` is the
`ValueError("Not found the category: ...")`, `typeError` is the `TypeError`
from slicing a missing (`None`) href, `attributeError`/`indexError` arise in
`_parse_product_info` and `_get_page_count`, `valueError` is `ValueError`
(unparsable int in `_get_page_count`, unparsable float in `_parse_prices`,
unparsable rating in `_convert_rating`). -/
inductive CrawlError : Type
  | fetchFail (e : FetchError)
  | categoryNotFound
  | typeError
  | attributeError
  | indexError
  | valueError
  deriving DecidableEq, Repr

/-- The data the Python code reads out of one fetched page's markup:
`categoryAnchors` are the `(text, href)` pairs of `ul a[href^='../books/']`
(this selector guarantees an href), `productAnchors` are the optional hrefs of
`article.product_pod > h3 > a` (`none` = anchor without href), `paginationText`
is the stripped text of `ul.pager li.current` when that element exists,
`titleText` is the stripped text of the product page `h1` when it exists,
`ratingClasses` is the class token list of `p[class^=star-rating ]` when that
element exists, and `attrTable` holds for each `tr` of the striped table the
optional stripped texts of its `th` and `td` (`none` = cell missing). -/
structure Page : Type where
  categoryAnchors : List (String × String)
  productAnchors : List (Option String)
  paginationText : Option String
  titleText : Option String
  ratingClasses : Option (List String)
  attrTable : Option (List (Option String × Option String))
  deriving DecidableEq, Repr

/-- The remote site: maps a request path to the fetched page or a failure.
This is the behaviour of `BookScraper._request_to_page` composed with the
markup reading described at `Page`. -/
structure Site : Type where
  fetch : String → Except FetchError Page

/-- Left-to-right sequencing of fallible computations: `ok` of the ordered
result list when every element succeeds, the first error otherwise.  Models
both the all-or-nothing result of an `asyncio.TaskGroup` cohort and a Python
loop/comprehension in which each step may raise. -/
def exSeq {ε α β : Type} (f : α → Except ε β) : List α → Except ε (List β)
  | [] => .ok []
  | x :: xs =>
    match f x with
    | .error e => .error e
    | .ok y =>
      match exSeq f xs with
      | .error e => .error e
      | .ok ys => .ok (y :: ys)

/-- Python `dict` built from an association list (later bindings overwrite
earlier ones) queried with `.get`: the value of the last binding of `key`. -/
def dictGet (entries : List (String × String)) (key : String) : Option String :=
  (entries.reverse.find? (fun kv => kv.1 == key)).map (fun kv => kv.2)

/-- Python `str.lower` (the strings involved are ASCII). -/
def strLower (s : String) : String := String.mk (s.toList.map Char.toLower)

/-- Python `s[n:]`. -/
def strDrop (s : String) (n : Nat) : String := String.mk (s.toList.drop n)

/-- Python `s[a:-b]` (for `b > 0`): drop the first `a` and last `b` characters,
empty when fewer than `a + b` characters remain. -/
def strSlice (s : String) (a b : Nat) : String :=
  String.mk ((s.toList.drop a).take (s.toList.length - a - b))

/-- `BookScraper._parse_category_paths`: each category anchor contributes the
binding `text.lower() : href[3:-11]`. -/
def parse_category_paths (pg : Page) : List (String × String) :=
  pg.categoryAnchors.map (fun kv => (strLower kv.1, strSlice kv.2 3 11))

/-- `BookScraper._parse_product_paths`: `element.get("href")[9:]` per product
anchor; slicing a missing href (`None`) raises `TypeError`. -/
def parse_product_paths (pg : Page) : Except CrawlError (List String) :=
  exSeq (fun h =>
    match h with
    | some s => Except.ok (strDrop s 9)
    | none => Except.error CrawlError.typeError) pg.productAnchors

/-- `BookScraper._get_page_count`: with a pagination indicator present, take
the LAST character of its text (`[-1]`, `IndexError` on empty text), convert
it with `int` (`ValueError` unless it is a digit) and return
`range(2, last + 1)`; without the indicator return `range(0)`. -/
def get_page_count (pg : Page) : Except CrawlError (List Nat) :=
  match pg.paginationText with
  | none => .ok []
  | some t =>
    match t.toList.getLast? with
    | none => .error .indexError
    | some c =>
      if c.isDigit then .ok (List.range' 2 (c.toNat - 48 - 1))
      else .error .valueError

/-- Request path of the catalog index page used by `_collect_paths`. -/
def indexPath : String := "category/books_1/index.html"

/-- Request path of a category's first listing page. -/
def categoryIndexPath (p : String) : String := "category/" ++ p ++ "/index.html"

/-- Request path of listing page `n` of a category. -/
def listingPagePath (p : String) (n : Nat) : String :=
  "category/" ++ p ++ "/page-" ++ toString n ++ ".html"

/-- `BookScraper._collect_paths`: resolve the category (case-folded lookup; a
missing key or an empty path is falsy and raises the not-found `ValueError`),
fetch the first listing page and gather its product paths, compute the page
range, then fetch pages 2..N as one `TaskGroup` cohort whose failures are
caught and logged (`except*`), keeping only the first page's paths; when every
cohort fetch succeeds the results are parsed in page order in the `else:`
clause, whose own exceptions are not caught and so propagate. -/
def collect_paths (site : Site) (category : String) :
    Except CrawlError (List String) :=
  match site.fetch indexPath with
  | .error e => .error (.fetchFail e)
  | .ok idxPg =>
    match dictGet (parse_category_paths idxPg) (strLower category) with
    | none => .error .categoryNotFound
    | some p =>
      if p = "" then .error .categoryNotFound
      else
        match site.fetch (categoryIndexPath p) with
        | .error e => .error (.fetchFail e)
        | .ok pg =>
          match parse_product_paths pg with
          | .error e => .error e
          | .ok firstPaths =>
            match get_page_count pg with
            | .error e => .error e
            | .ok pages =>
              if pages.isEmpty then .ok firstPaths
              else
                match exSeq (fun n => site.fetch (listingPagePath p n)) pages with
                | .error _ => .ok firstPaths
                | .ok cohort =>
                  match exSeq parse_product_paths cohort with
                  | .error e => .error e
                  | .ok lists => .ok (firstPaths ++ lists.flatten)

/-- Rating token extraction inside `_parse_product_info`:
`select_one("p[class^=star-rating ]").get("class", "")[1]` — a missing rating
element raises `AttributeError`; the matched element always has a class
attribute, and `[1]` raises `IndexError` when it has fewer than two tokens. -/
def getRatingToken (pg : Page) : Except CrawlError String :=
  match pg.ratingClasses with
  | none => .error .attributeError
  | some cls =>
    match cls[1]? with
    | none => .error .indexError
    | some r => .ok r

/-- Python `dict` update `d[k] = v` on an insertion-ordered association list:
overwrite in place when the key exists, append otherwise. -/
def dictInsert (d : List (String × String)) (k v : String) :
    List (String × String) :=
  if d.any (fun kv => kv.1 == k) then
    d.map (fun kv => if kv.1 == k then (k, v) else kv)
  else d ++ [(k, v)]

/-- Python `{**d, **pairs}`: fold `dictInsert` over the new pairs. -/
def dictInsertMany (d : List (String × String)) :
    List (String × String) → List (String × String)
  | [] => d
  | kv :: rest => dictInsertMany (dictInsert d kv.1 kv.2) rest

/-- One raw product record: the Python `dict[str, str]` as an
insertion-ordered association list. -/
abbrev RawRecord := List (String × String)

/-- `BookScraper._parse_product_info`: a missing title element raises
`AttributeError`; a present but empty title text is falsy, so the function
falls through both branches and returns `None`; otherwise the base record
{Product name, URL, Rating} is built (rating extraction may raise) and, when
the attribute table exists, its rows are merged in (a row with a missing
`th`/`td` raises `AttributeError`). -/
def parse_product_info (pg : Page) (url : String) :
    Except CrawlError (Option RawRecord) :=
  match pg.titleText with
  | none => .error .attributeError
  | some t =>
    if t = "" then .ok none
    else
      match pg.attrTable with
      | some rows =>
        match getRatingToken pg with
        | .error e => .error e
        | .ok r =>
          match exSeq (fun rc =>
              match rc.1, rc.2 with
              | some th, some td => Except.ok (th, td)
              | _, _ => Except.error CrawlError.attributeError) rows with
          | .error e => .error e
          | .ok pairs =>
            .ok (some (dictInsertMany
              [("Product name", t), ("URL", url), ("Rating", r)] pairs))
      | none =>
        match getRatingToken pg with
        | .error e => .error e
        | .ok r => .ok (some [("Product name", t), ("URL", url), ("Rating", r)])

/-- Modelled from the spec: the base URL prepended to product paths is read
from `config.yaml`, which is not under `src/`; its value is the site root of
the fixed target shown in the `scrape` docstring examples.  The proofs only
use that prepending it is injective. -/
def base_url : String := "https://books.toscrape.com/catalogue/"

/-- First-occurrence deduplication: the insertion order of the keys of a
Python dict comprehension (`{key(x) : ... for x in l}` keeps each key at its
first position; the path list maps injectively to the URL keys). -/
def dedupFirst (l : List String) : List String :=
  l.foldl (fun acc x => if acc.contains x then acc else acc ++ [x]) []

/-- `BookScraper.scrape`: collect the product paths (errors propagate); an
empty path list skips the fetch and the function returns `None`; otherwise
the detail pages are fetched as one `TaskGroup` cohort whose task dict is
keyed by `base_url + path` (duplicate paths collapse onto one key, keys keep
first-occurrence order); a cohort failure is caught and logged, and the
function falls through returning `None`; on total success the `else:` clause
builds one record per dict entry (parse errors there are not caught). -/
def scrape (site : Site) (category : String) :
    Except CrawlError (Option (List (Option RawRecord))) :=
  match collect_paths site category with
  | .error e => .error e
  | .ok paths =>
    if paths.isEmpty then .ok none
    else
      match exSeq (fun p => site.fetch p) (dedupFirst paths) with
      | .error _ => .ok none
      | .ok pages =>
        match exSeq (fun ppg => parse_product_info ppg.2 (base_url ++ ppg.1))
            ((dedupFirst paths).zip pages) with
        | .error e => .error e
        | .ok recs => .ok (some recs)

/-- `BookScraper._convert_rating`: `match rating.lower()` over the five rating
words; any other value raises `ValueError("Rating must be parsable")`. -/
def convert_rating (rating : String) : Except CrawlError ℚ :=
  if strLower rating = "one" then .ok 1
  else if strLower rating = "two" then .ok 2
  else if strLower rating = "three" then .ok 3
  else if strLower rating = "four" then .ok 4
  else if strLower rating = "five" then .ok 5
  else .error .valueError

/-- The four zero synonyms of the regex
`(?i)(Free|Give Away|Gratis|No charge)` in alternation order. -/
def zeroSynonyms : List (List Char) :=
  ["Free".toList, "Give Away".toList, "Gratis".toList, "No charge".toList]

/-- Case-insensitive pattern consumption: when `pat` (compared ASCII
case-insensitively) starts `cs`, return the remaining characters. -/
def consumeCI : List Char → List Char → Option (List Char)
  | [], cs => some cs
  | _ :: _, [] => none
  | p :: ps, c :: cs =>
    if p.toLower = c.toLower then consumeCI ps cs else none

/-- First synonym (in alternation order) matching at the head of `cs`,
returning the characters after the match. -/
def synMatch? (cs : List Char) : Option (List Char) :=
  (zeroSynonyms.filterMap (fun pat => consumeCI pat cs)).head?

/-- `re.sub` scan for the synonym substitution: at each position, replace a
synonym occurrence by `'0'` and continue after it, else keep the character.
The fuel is the remaining length (each step consumes at least one char). -/
def replaceSynsAux : Nat → List Char → List Char
  | 0, cs => cs
  | _ + 1, [] => []
  | fuel + 1, c :: cs =>
    match synMatch? (c :: cs) with
    | some rest => '0' :: replaceSynsAux fuel rest
    | none => c :: replaceSynsAux fuel cs

/-- `df.replace({r"(?i)(Free|Give Away|Gratis|No charge)" : "0"}, regex=True)`
on one cell. -/
def replaceZeroSyns (s : String) : String :=
  String.mk (replaceSynsAux s.toList.length s.toList)

/-- `df.replace({r"[^\d.]" : ""}, regex=True)` on one cell: keep digits and
dots. -/
def stripNonDigitDot (s : String) : String :=
  String.mk (s.toList.filter (fun c => c.isDigit || c = '.'))

/-- The full per-cell string transformation of `_parse_prices`. -/
def priceStripCell (s : String) : String := stripNonDigitDot (replaceZeroSyns s)

/-- Digit run value, most significant first. -/
def digitsVal (cs : List Char) : Nat :=
  cs.foldl (fun acc c => 10 * acc + (c.toNat - 48)) 0

/-- Python `float(s)` for the stripped cells (strings of digits and dots):
fails on an empty string, more than one dot, or no digit at all; otherwise
the exact decimal value. -/
def pyFloat? (s : String) : Option ℚ :=
  let cs := s.toList
  if cs.isEmpty then none
  else if cs.any (fun c => !(c.isDigit || c = '.')) then none
  else if 1 < (cs.filter (fun c => c = '.')).length then none
  else if !(cs.any (fun c => c.isDigit)) then none
  else
    let ip := cs.takeWhile (fun c => c ≠ '.')
    let fp := (cs.dropWhile (fun c => c ≠ '.')).drop 1
    some (mkRat (digitsVal ip * 10 ^ fp.length + digitsVal fp) (10 ^ fp.length))

/-- One row of the three price-bearing columns
("Price (excl. tax)", "Price (incl. tax)", "Tax"); `none` is a missing cell
(`NaN`, as produced by `DataFrame(...)` for a record without that key). -/
abbrev PriceRow := Option String × Option String × Option String

/-- Apply the synonym replacement and strip to every present cell of a row
(`replace` leaves `NaN` cells unchanged). -/
def stripPriceRow (r : PriceRow) : PriceRow :=
  (r.1.map priceStripCell, r.2.1.map priceStripCell, r.2.2.map priceStripCell)

/-- `isna()` on one transformed row. -/
def rowHasNone (r : PriceRow) : Bool :=
  r.1.isNone || r.2.1.isNone || r.2.2.isNone

/-- `astype(float)` on one cell: `ValueError` when the string does not parse
(the `none` branch is unreachable under the `isna` guard). -/
def cellFloat (c : Option String) : Except CrawlError ℚ :=
  match c with
  | none => .error .valueError
  | some s =>
    match pyFloat? s with
    | some q => .ok q
    | none => .error .valueError

/-- `astype(float)` on one row of the three columns. -/
def rowFloat (r : PriceRow) : Except CrawlError (ℚ × ℚ × ℚ) :=
  match cellFloat r.1 with
  | .error e => .error e
  | .ok a =>
    match cellFloat r.2.1 with
    | .error e => .error e
    | .ok b =>
      match cellFloat r.2.2 with
      | .error e => .error e
      | .ok c => .ok (a, b, c)

/-- Result of `_parse_prices`: either the three columns converted to floats or
the three columns still as (transformed) strings. -/
inductive PricesResult : Type
  | floats (rows : List (ℚ × ℚ × ℚ))
  | strings (rows : List PriceRow)
  deriving DecidableEq, Repr

/-- `BookScraper._parse_prices` on the three price-bearing columns: apply the
synonym replacement and the non-digit/non-dot strip to every cell; when any
resulting cell is `NaN` (`isna().any().any()`), return the transformed string
columns; otherwise `astype(float)`, which raises `ValueError` when any cell
fails to parse. -/
def parse_prices (rows : List PriceRow) : Except CrawlError PricesResult :=
  let extracted := rows.map stripPriceRow
  if extracted.any rowHasNone then .ok (.strings extracted)
  else
    match exSeq rowFloat extracted with
    | .error e => .error e
    | .ok vals => .ok (.floats vals)

/-- The currency symbol class `[$£€]` of `_parse_currency`. -/
def currencySymbols : List Char := ['$', '£', '€']

/-- Last currency symbol of a newline-free character run, `none` when the run
has no symbol. -/
def lineLastSymbol? (l : List Char) : Option Char :=
  (l.filter (fun c => currencySymbols.contains c)).getLast?

/-- Split a character list at newlines (`.` in the regex does not match
`'\n'`). -/
def splitLines : List Char → List (List Char)
  | [] => [[]]
  | c :: cs =>
    if c = '\n' then [] :: splitLines cs
    else
      match splitLines cs with
      | [] => [[c]]
      | l :: ls => (c :: l) :: ls

/-- `re.search(r".*([$£€]).*", s)` group 1: the match starts at the leftmost
feasible position and the first `.*` is greedy, so the group captures the LAST
currency symbol of the first newline-delimited line containing one; `none`
when the string has no symbol (pandas `extract` yields `NaN`, not an error). -/
def extractCurrency (s : String) : Option Char :=
  ((splitLines s.toList).filterMap lineLastSymbol?).head?

/-- `BookScraper._parse_currency` on the "Price (incl. tax)" column: regex
extraction per cell; a `NaN` cell stays `NaN`. -/
def parse_currency (cells : List (Option String)) : List (Option Char) :=
  cells.map (fun c => c.bind extractCurrency)

/-! ### Helper lemmas about the sequencing combinator and the parsers -/

theorem exSeq_error_of_mem {ε α β : Type} {f : α → Except ε β} {l : List α}
    {x : α} {e : ε} (hx : x ∈ l) (hf : f x = .error e) :
    ∃ e', exSeq f l = .error e' := by
  induction l with
  | nil => cases hx
  | cons a as ih =>
    cases hx with
    | head => exact ⟨e, by simp [exSeq, hf]⟩
    | tail _ hmem =>
      simp only [exSeq]
      cases hfa : f a with
      | error e2 => exact ⟨e2, rfl⟩
      | ok y =>
        obtain ⟨e', he'⟩ := ih hmem
        rw [he']
        exact ⟨e', rfl⟩

theorem exSeq_error_mem {ε α β : Type} {f : α → Except ε β} {l : List α}
    {e : ε} (h : exSeq f l = .error e) : ∃ x ∈ l, f x = .error e := by
  induction l with
  | nil => simp [exSeq] at h
  | cons a as ih =>
    simp only [exSeq] at h
    cases hfa : f a with
    | error e2 =>
      rw [hfa] at h
      injection h with h
      exact ⟨a, List.mem_cons_self a as, by rw [hfa, h]⟩
    | ok y =>
      rw [hfa] at h
      cases hrest : exSeq f as with
      | error e2 =>
        rw [hrest] at h
        injection h with h
        obtain ⟨x, hx, hfx⟩ := ih (by rw [hrest, h])
        exact ⟨x, List.mem_cons_of_mem a hx, hfx⟩
      | ok ys => rw [hrest] at h; cases h

theorem exSeq_ok_length {ε α β : Type} {f : α → Except ε β} {l : List α}
    {ys : List β} (h : exSeq f l = .ok ys) : ys.length = l.length := by
  induction l generalizing ys with
  | nil =>
    simp only [exSeq] at h
    injection h with h
    rw [← h]
    rfl
  | cons a as ih =>
    simp only [exSeq] at h
    cases hfa : f a with
    | error e => rw [hfa] at h; cases h
    | ok y =>
      rw [hfa] at h
      cases hrest : exSeq f as with
      | error e => rw [hrest] at h; cases h
      | ok ys' =>
        rw [hrest] at h
        injection h with h
        rw [← h]
        simp [ih hrest]

theorem dictGet_eq_none {entries : List (String × String)} {key : String}
    (h : ∀ kv ∈ entries, kv.1 ≠ key) : dictGet entries key = none := by
  unfold dictGet
  rw [List.find?_eq_none.mpr]
  · rfl
  · intro kv hkv
    simpa using h kv (List.mem_reverse.mp hkv)

theorem cellFloat_error_eq {c : Option String} {e : CrawlError}
    (h : cellFloat c = .error e) : e = .valueError := by
  cases c with
  | none => simp only [cellFloat] at h; injection h with h; rw [h]
  | some s =>
    simp only [cellFloat] at h
    cases hq : pyFloat? s with
    | none => rw [hq] at h; injection h with h; rw [h]
    | some q => rw [hq] at h; cases h

theorem rowFloat_error_eq {r : PriceRow} {e : CrawlError}
    (h : rowFloat r = .error e) : e = .valueError := by
  simp only [rowFloat] at h
  cases h1 : cellFloat r.1 with
  | error e1 =>
    rw [h1] at h
    injection h with h
    exact h ▸ cellFloat_error_eq h1
  | ok a =>
    rw [h1] at h
    cases h2 : cellFloat r.2.1 with
    | error e2 =>
      rw [h2] at h
      injection h with h
      exact h ▸ cellFloat_error_eq h2
    | ok b =>
      rw [h2] at h
      cases h3 : cellFloat r.2.2 with
      | error e3 =>
        rw [h3] at h
        injection h with h
        exact h ▸ cellFloat_error_eq h3
      | ok c => rw [h3] at h; cases h

theorem splitLines_no_newline {cs : List Char} (h : '\n' ∉ cs) :
    splitLines cs = [cs] := by
  induction cs with
  | nil => rfl
  | cons c cs ih =>
    simp only [splitLines]
    have hc : ¬ c = '\n' := fun hh => h (hh ▸ List.mem_cons_self c cs)
    rw [if_neg hc, ih (fun hm => h (List.mem_cons_of_mem c hm))]

theorem splitLines_mem_subset {cs l : List Char} (hl : l ∈ splitLines cs) :
    ∀ c ∈ l, c ∈ cs := by
  induction cs generalizing l with
  | nil =>
    simp only [splitLines, List.mem_singleton] at hl
    subst hl
    intro c hc
    cases hc
  | cons a as ih =>
    simp only [splitLines] at hl
    by_cases ha : a = '\n'
    · rw [if_pos ha] at hl
      cases hl with
      | head => intro c hc; cases hc
      | tail _ hmem => exact fun c hc => List.mem_cons_of_mem a (ih hmem c hc)
    · rw [if_neg ha] at hl
      cases hsp : splitLines as with
      | nil =>
        rw [hsp] at hl
        simp only [List.mem_singleton] at hl
        subst hl
        intro c hc
        simp only [List.mem_singleton] at hc
        exact hc ▸ List.mem_cons_self a as
      | cons t ts =>
        rw [hsp] at hl
        cases hl with
        | head =>
          intro c hc
          cases hc with
          | head => exact List.mem_cons_self a as
          | tail _ hct =>
            exact List.mem_cons_of_mem a (ih (hsp ▸ List.mem_cons_self t ts) c hct)
        | tail _ hmem =>
          exact fun c hc =>
            List.mem_cons_of_mem a (ih (hsp ▸ List.mem_cons_of_mem t hmem) c hc)

/-! ### Concrete pages and sites used by witnesses and counterexamples -/

/-- Catalog index page with one category "Travel" whose anchor href
`../trav/index.html` strips to the path `trav`. -/
def idxPgC1 : Page := ⟨[("Travel", "../trav/index.html")], [], none, none, none, none⟩

/-- First listing page: one product path `p1`, pagination "Page 1 of 3". -/
def listPgC1 : Page := ⟨[], [some "123456789p1"], some "Page 1 of 3", none, none, none⟩

/-- Listing page 2 with product path `p2`. -/
def pageC1b : Page := ⟨[], [some "123456789p2"], none, none, none, none⟩

/-- Listing page 3 with product path `p3`. -/
def pageC1c : Page := ⟨[], [some "123456789p3"], none, none, none, none⟩

/-- Site on which the whole pagination cohort (pages 2 and 3) succeeds. -/
def siteC1Ok : Site := ⟨fun path =>
  if path = indexPath then .ok idxPgC1
  else if path = categoryIndexPath "trav" then .ok listPgC1
  else if path = listingPagePath "trav" 2 then .ok pageC1b
  else if path = listingPagePath "trav" 3 then .ok pageC1c
  else .error .httpStatus⟩

/-- Site on which page 2 succeeds but the page 3 fetch times out. -/
def siteC1Fail : Site := ⟨fun path =>
  if path = indexPath then .ok idxPgC1
  else if path = categoryIndexPath "trav" then .ok listPgC1
  else if path = listingPagePath "trav" 2 then .ok pageC1b
  else .error .timeout⟩

/-- C1: if any member of the pagination cohort (pages 2..N, launched together
after the first page) fails, `_collect_paths` returns exactly the paths of the
first listing page — no cohort page contributes, even when the other members
succeeded; if every member succeeds (and its results parse), each page's paths
are appended after the first page's paths in page-number order. -/
theorem C1_pagination_cohort_all_or_nothing
    (site : Site) (category p : String) (idxPg pg : Page)
    (firstPaths : List String) (pages : List Nat)
    (h1 : site.fetch indexPath = .ok idxPg)
    (h2 : dictGet (parse_category_paths idxPg) (strLower category) = some p)
    (hp : p ≠ "")
    (h3 : site.fetch (categoryIndexPath p) = .ok pg)
    (h4 : parse_product_paths pg = .ok firstPaths)
    (h5 : get_page_count pg = .ok pages)
    (hne : pages ≠ []) :
    ((∃ n ∈ pages, ∃ e, site.fetch (listingPagePath p n) = .error e) →
        collect_paths site category = .ok firstPaths)
      ∧
    (∀ cohort lists,
        exSeq (fun n => site.fetch (listingPagePath p n)) pages = .ok cohort →
        exSeq parse_product_paths cohort = .ok lists →
        collect_paths site category = .ok (firstPaths ++ lists.flatten)) := by
  have hne' : pages.isEmpty = false := by
    cases pages with
    | nil => exact absurd rfl hne
    | cons a as => rfl
  constructor
  · rintro ⟨n, hn, e, he⟩
    obtain ⟨e', he'⟩ := @exSeq_error_of_mem FetchError Nat Page
      (fun m => site.fetch (listingPagePath p m)) pages n e hn he
    simp only [collect_paths, h1, h2, if_neg hp, h3, h4, h5, hne', he']
    try rfl
  · intro cohort lists hc hl
    simp only [collect_paths, h1, h2, if_neg hp, h3, h4, h5, hne', hc, hl]
    try rfl

/-- Witness for C1: on `siteC1Fail` (page 3 times out) the crawl returns only
the first page's path, although page 2 succeeded; on `siteC1Ok` the cohort's
paths are appended in page order. -/
theorem C1_pagination_cohort_all_or_nothing_witness :
    collect_paths siteC1Fail "Travel" = .ok ["p1"]
      ∧ collect_paths siteC1Ok "Travel" = .ok ["p1", "p2", "p3"] := by
  constructor
  · exact (C1_pagination_cohort_all_or_nothing siteC1Fail "Travel" "trav"
      idxPgC1 listPgC1 ["p1"] [2, 3] (by decide) (by decide) (by decide)
      (by decide) (by decide) (by decide) (by decide)).1
      ⟨3, by decide, FetchError.timeout, by decide⟩
  · exact (C1_pagination_cohort_all_or_nothing siteC1Ok "Travel" "trav"
      idxPgC1 listPgC1 ["p1"] [2, 3] (by decide) (by decide) (by decide)
      (by decide) (by decide) (by decide) (by decide)).2
      [pageC1b, pageC1c] [["p2"], ["p3"]] (by decide) (by decide)

/-- Catalog index page for the C2 sites: category "Horror" at path `horr`. -/
def idxPgC2 : Page := ⟨[("Horror", "../horr/index.html")], [], none, none, none, none⟩

/-- First listing page of `horr`: one product path `q1`, two listing pages. -/
def listPgC2 : Page := ⟨[], [some "123456789q1"], some "Page 1 of 2", none, none, none⟩

/-- Listing page 2 whose single product anchor has NO href: parsing it slices
`None` and raises `TypeError`. -/
def pageC2Bad : Page := ⟨[], [none], none, none, none, none⟩

/-- Site on which every fetch of the pagination cohort succeeds but page 2's
markup makes `_parse_product_paths` raise. -/
def siteC2Bad : Site := ⟨fun path =>
  if path = indexPath then .ok idxPgC2
  else if path = categoryIndexPath "horr" then .ok listPgC2
  else if path = listingPagePath "horr" 2 then .ok pageC2Bad
  else .error .httpStatus⟩

/-- Site on which the single pagination-cohort fetch (page 2) times out. -/
def siteC2Fail : Site := ⟨fun path =>
  if path = indexPath then .ok idxPgC2
  else if path = categoryIndexPath "horr" then .ok listPgC2
  else .error .timeout⟩

/-- Listing page of `horr` without pagination: one product path `d1`. -/
def listPgC2One : Page := ⟨[], [some "123456789d1"], none, none, none, none⟩

/-- Site on which the crawl yields path `d1` but the detail fetch of `d1`
times out. -/
def siteC2DetailFail : Site := ⟨fun path =>
  if path = indexPath then .ok idxPgC2
  else if path = categoryIndexPath "horr" then .ok listPgC2One
  else .error .timeout⟩

/-- C2 counterexample: on `siteC2Bad` every cohort member fetch succeeds, yet
the `TypeError` raised while parsing the successful page-2 result in the
`else:` clause is NOT caught by the `except*` handlers and propagates to the
caller of the crawl — refuting the claim that such parse failures are only
logged and never raised. -/
theorem C2_counterexample_parse_error_raised :
    collect_paths siteC2Bad "Horror" = .error .typeError := by decide

/-- C2 (amended): HTTP-status and timeout failures of cohort member fetches
are caught inside the crawl/fetch layer and only logged: a failing pagination
cohort still returns the first page's paths, and a failing detail cohort makes
`scrape` return `None`; but a parse exception raised while inspecting a
successful member's result propagates to the caller (see the
counterexample). -/
theorem C2_cohort_fetch_failures_not_raised :
    (∀ (site : Site) (category p : String) (idxPg pg : Page)
        (firstPaths : List String) (pages : List Nat),
        site.fetch indexPath = .ok idxPg →
        dictGet (parse_category_paths idxPg) (strLower category) = some p →
        p ≠ "" →
        site.fetch (categoryIndexPath p) = .ok pg →
        parse_product_paths pg = .ok firstPaths →
        get_page_count pg = .ok pages →
        pages ≠ [] →
        (∃ n ∈ pages, ∃ e, site.fetch (listingPagePath p n) = .error e) →
        collect_paths site category = .ok firstPaths)
      ∧
    (∀ (site : Site) (category : String) (paths : List String),
        collect_paths site category = .ok paths →
        paths ≠ [] →
        (∃ q ∈ dedupFirst paths, ∃ e, site.fetch q = .error e) →
        scrape site category = .ok none) := by
  constructor
  · intro site category p idxPg pg firstPaths pages h1 h2 hp h3 h4 h5 hne hex
    have hne' : pages.isEmpty = false := by
      cases pages with
      | nil => exact absurd rfl hne
      | cons a as => rfl
    obtain ⟨n, hn, e, he⟩ := hex
    obtain ⟨e', he'⟩ := @exSeq_error_of_mem FetchError Nat Page
      (fun m => site.fetch (listingPagePath p m)) pages n e hn he
    simp only [collect_paths, h1, h2, if_neg hp, h3, h4, h5, hne', he']
    try rfl
  · intro site category paths hcp hne hex
    have hne' : paths.isEmpty = false := by
      cases paths with
      | nil => exact absurd rfl hne
      | cons a as => rfl
    obtain ⟨q, hq, e, he⟩ := hex
    have he2 : (fun x => site.fetch x) q = Except.error e := he
    obtain ⟨e', he'⟩ := exSeq_error_of_mem hq he2
    simp only [scrape, hcp, hne', he']
    try rfl

/-- Witness for C2 (amended): a timed-out pagination cohort still returns the
first page's path `q1`; a timed-out detail cohort makes `scrape` return
`None`. -/
theorem C2_cohort_fetch_failures_not_raised_witness :
    collect_paths siteC2Fail "Horror" = .ok ["q1"]
      ∧ scrape siteC2DetailFail "Horror" = .ok none := by
  constructor
  · exact C2_cohort_fetch_failures_not_raised.1 siteC2Fail "Horror" "horr"
      idxPgC2 listPgC2 ["q1"] [2] (by decide) (by decide) (by decide)
      (by decide) (by decide) (by decide) (by decide)
      ⟨2, by decide, FetchError.timeout, by decide⟩
  · exact C2_cohort_fetch_failures_not_raised.2 siteC2DetailFail "Horror"
      ["d1"] (by decide) (by decide) ⟨"d1", by decide, FetchError.timeout, by decide⟩

/-- A price row whose first cell, once stripped, is empty and therefore not
parsable as a decimal. -/
def rowC3Bad : PriceRow := (some "abc", some "£1.50", some "£0.00")

/-- C3 counterexample: with an unparsable (non-missing) cell, `_parse_prices`
does NOT return the original string columns — `astype(float)` raises
`ValueError`, which propagates. -/
theorem C3_counterexample_unparsable_cell_raises :
    parse_prices [rowC3Bad] = .error .valueError
      ∧ parse_prices [rowC3Bad] ≠ .ok (.strings [rowC3Bad]) := by
  constructor
  · decide
  · decide

/-- C3 (amended): the all-or-nothing fallback of `_parse_prices` triggers on
MISSING cells, not on unparsable ones, and what it returns are the
synonym-substituted, stripped strings, not the originals: when any cell of
the three columns is missing, all three columns come back as the transformed
strings with no cell converted; when no cell is missing and every stripped
cell parses as a decimal, all three columns are converted; when no cell is
missing but some stripped cell does not parse, a `ValueError` is raised. -/
theorem C3_prices_column_group_policy (rows : List PriceRow) :
    ((rows.map stripPriceRow).any rowHasNone = true →
        parse_prices rows = .ok (.strings (rows.map stripPriceRow)))
      ∧
    (∀ vals, (rows.map stripPriceRow).any rowHasNone = false →
        exSeq rowFloat (rows.map stripPriceRow) = .ok vals →
        parse_prices rows = .ok (.floats vals))
      ∧
    ((rows.map stripPriceRow).any rowHasNone = false →
        (∃ r ∈ rows.map stripPriceRow, ∃ e, rowFloat r = .error e) →
        parse_prices rows = .error .valueError) := by
  refine ⟨fun h => ?_, fun vals h hs => ?_, fun h hex => ?_⟩
  · simp only [parse_prices, h]
    try rfl
  · simp only [parse_prices, h, hs]
    try rfl
  · obtain ⟨r, hr, e, he⟩ := hex
    obtain ⟨e', he'⟩ := exSeq_error_of_mem hr he
    have hv : e' = CrawlError.valueError := by
      obtain ⟨x, _, hfx⟩ := exSeq_error_mem he'
      exact rowFloat_error_eq hfx
    simp only [parse_prices, h, he', hv]
    try rfl

/-- Witness for C3 (amended) at concrete rows: a missing-cell row yields the
stripped strings, fully parsable rows yield floats, and an unparsable cell
yields the `ValueError`. -/
theorem C3_prices_column_group_policy_witness :
    parse_prices [(none, some "£1a", some "Free")]
        = .ok (.strings [(none, some "1", some "0")])
      ∧ parse_prices [(some "£51.77", some "£51.77", some "£0.00")]
        = .ok (.floats [(mkRat 5177 100, mkRat 5177 100, mkRat 0 1)])
      ∧ parse_prices [(some "n/a", some "£1.00", some "£2.00")]
        = .error .valueError := by
  refine ⟨(C3_prices_column_group_policy _).1 (by decide), ?_, ?_⟩
  · exact (C3_prices_column_group_policy _).2.1
      [(mkRat 5177 100, mkRat 5177 100, mkRat 0 1)] (by decide) (by decide)
  · exact (C3_prices_column_group_policy _).2.2 (by decide)
      ⟨(some "", some "1.00", some "2.00"), by decide, CrawlError.valueError, by decide⟩

/-- First listing page of a category whose pagination indicator announces 12
total pages. -/
def pgC4 : Page := ⟨[], [], some "Page 1 of 12", none, none, none⟩

/-- C4: `_get_page_count` converts only the LAST character of the indicator
text (`[-1]`), so a two-digit total page count of 12 produces
`range(2, 3)` — only page 2 is fetched — instead of the range 2..12 required
by the trailing numeral reading (the docstring promises "a range from second
page to the last page"). -/
theorem C4_page_count_truncated_to_last_char :
    get_page_count pgC4 = .ok [2]
      ∧ get_page_count pgC4 ≠ .ok (List.range' 2 11) := by
  constructor
  · decide
  · decide

/-- Catalog index page for the C5 site: category "Poetry" at path `poet`. -/
def idxPgC5 : Page := ⟨[("Poetry", "../poet/index.html")], [], none, none, none, none⟩

/-- Listing page of `poet` whose two product anchors carry the SAME href, so
the crawl accumulates the duplicate path `b1` twice. -/
def listPgC5 : Page := ⟨[], [some "123456789b1", some "123456789b1"], none, none, none, none⟩

/-- Detail page of product `b1`. -/
def detailPgC5 : Page := ⟨[], [], none, some "Sonnets", some ["star-rating", "Three"], none⟩

/-- Site producing the duplicate path list `["b1", "b1"]`. -/
def siteC5 : Site := ⟨fun path =>
  if path = indexPath then .ok idxPgC5
  else if path = categoryIndexPath "poet" then .ok listPgC5
  else if path = "b1" then .ok detailPgC5
  else .error .httpStatus⟩

/-- The raw record scraped for product `b1`. -/
def recC5 : RawRecord :=
  [("Product name", "Sonnets"), ("URL", base_url ++ "b1"), ("Rating", "Three")]

/-- C5 counterexample: the crawl accumulates the duplicate path twice, but the
detail stage keys its task dict by full URL, so the two occurrences collapse
and `scrape` yields ONE record, not one per path. -/
theorem C5_counterexample_duplicates_collapse :
    collect_paths siteC5 "Poetry" = .ok ["b1", "b1"]
      ∧ scrape siteC5 "Poetry" = .ok (some [some recC5])
      ∧ ([some recC5] : List (Option RawRecord)).length
          ≠ (["b1", "b1"] : List String).length := by
  refine ⟨by decide, by decide, by decide⟩

/-- C5 (amended): the detail-fetch stage creates one task per path element,
but tasks are stored in a dict keyed by `base_url + path`, so duplicate paths
collapse onto one key: whenever `scrape` returns records, it yields exactly
one raw record per DISTINCT path, in first-occurrence order of the path
list. -/
theorem C5_one_record_per_distinct_path
    (site : Site) (category : String) (paths : List String)
    (recs : List (Option RawRecord))
    (h1 : collect_paths site category = .ok paths)
    (h2 : scrape site category = .ok (some recs)) :
    recs.length = (dedupFirst paths).length := by
  simp only [scrape, h1] at h2
  by_cases hemp : paths.isEmpty = true
  · rw [if_pos hemp] at h2
    simp at h2
  · rw [if_neg hemp] at h2
    cases hf : exSeq (fun p => site.fetch p) (dedupFirst paths) with
    | error e => simp only [hf] at h2; simp at h2
    | ok pages =>
      simp only [hf] at h2
      cases hpr : exSeq (fun ppg => parse_product_info ppg.2 (base_url ++ ppg.1))
          ((dedupFirst paths).zip pages) with
      | error e => simp only [hpr] at h2; simp at h2
      | ok recs2 =>
        simp only [hpr] at h2
        simp only [Except.ok.injEq, Option.some.injEq] at h2
        subst h2
        have hlenP : pages.length = (dedupFirst paths).length := exSeq_ok_length hf
        have hlenR := exSeq_ok_length hpr
        rw [hlenR, List.length_zip, hlenP, min_self]

/-- Witness for C5 (amended) on the duplicate-path site: one record for the
two occurrences of `b1`. -/
theorem C5_one_record_per_distinct_path_witness :
    ([some recC5] : List (Option RawRecord)).length
      = (dedupFirst ["b1", "b1"]).length :=
  C5_one_record_per_distinct_path siteC5 "Poetry" ["b1", "b1"] [some recC5]
    (by decide) (by decide)

/-- C6 counterexample: on a cell containing both `£` and `$`, the greedy
first `.*` of `r".*([$£€]).*"` makes the group capture the LAST symbol, `$`,
not the earliest one, `£`. -/
theorem C6_counterexample_last_not_first :
    parse_currency [some "£1$2"] = [some '$']
      ∧ parse_currency [some "£1$2"] ≠ [some '£'] := by
  constructor
  · decide
  · decide

/-- C6 (amended): for newline-free cell text, `_parse_currency` extracts the
LAST currency symbol among `$`, `£`, `€` occurring in the "Price (incl. tax)"
text; when the text contains no such symbol, the row's value is missing and
no error is raised. -/
theorem C6_currency_last_symbol_or_missing :
    (∀ s : String, '\n' ∉ s.toList →
        parse_currency [some s]
          = [(s.toList.filter (fun c => currencySymbols.contains c)).getLast?])
      ∧
    (∀ s : String, s.toList.filter (fun c => currencySymbols.contains c) = [] →
        parse_currency [some s] = [none]) := by
  constructor
  · intro s h
    simp only [parse_currency, List.map, Option.bind, extractCurrency,
      splitLines_no_newline h]
    cases hl : lineLastSymbol? s.toList with
    | none =>
      simp only [List.filterMap, hl]
      simp only [lineLastSymbol?] at hl
      rw [hl]
      rfl
    | some c =>
      simp only [List.filterMap, hl]
      simp only [lineLastSymbol?] at hl
      rw [hl]
      rfl
  · intro s h
    have hall : ∀ c ∈ s.toList, ¬ currencySymbols.contains c = true :=
      List.filter_eq_nil_iff.mp h
    have hlines : ∀ l ∈ splitLines s.toList, lineLastSymbol? l = none := by
      intro l hml
      have : l.filter (fun c => currencySymbols.contains c) = [] :=
        List.filter_eq_nil_iff.mpr
          (fun c hc => hall c (splitLines_mem_subset hml c hc))
      simp only [lineLastSymbol?, this]
      rfl
    simp only [parse_currency, List.map, Option.bind, extractCurrency,
      List.filterMap_eq_nil_iff.mpr hlines]
    rfl

/-- Witness for C6 (amended): `a$b£c` yields its last symbol `£`; a
symbol-free cell yields a missing value. -/
theorem C6_currency_last_symbol_or_missing_witness :
    parse_currency [some "a$b£c"] = [some '£']
      ∧ parse_currency [some "abc"] = [none] :=
  ⟨(C6_currency_last_symbol_or_missing.1 "a$b£c" (by decide)).trans (by decide),
   C6_currency_last_symbol_or_missing.2 "abc" (by decide)⟩

/-- C7: for each of the five rating words in any letter case,
`_convert_rating` returns exactly 1.0 .. 5.0; every other string raises the
`ValueError` that the spec calls `RatingParseError`. -/
theorem C7_rating_words (s : String) :
    (strLower s = "one" → convert_rating s = .ok 1)
      ∧ (strLower s = "two" → convert_rating s = .ok 2)
      ∧ (strLower s = "three" → convert_rating s = .ok 3)
      ∧ (strLower s = "four" → convert_rating s = .ok 4)
      ∧ (strLower s = "five" → convert_rating s = .ok 5)
      ∧ (strLower s ∉ (["one", "two", "three", "four", "five"] : List String) →
          convert_rating s = .error .valueError) := by
  refine ⟨fun h => ?_, fun h => ?_, fun h => ?_, fun h => ?_, fun h => ?_,
    fun h => ?_⟩
  · simp [convert_rating, h]
  · simp [convert_rating, h]
  · simp [convert_rating, h]
  · simp [convert_rating, h]
  · simp [convert_rating, h]
  · simp only [List.mem_cons, List.mem_singleton, not_or] at h
    obtain ⟨h1, h2, h3, h4, h5, _⟩ := h
    simp [convert_rating, h1, h2, h3, h4, h5]

/-- Witness for C7: a mixed-case rating word and a non-rating word. -/
theorem C7_rating_words_witness :
    convert_rating "ThReE" = .ok 3
      ∧ convert_rating "six" = .error .valueError :=
  ⟨(C7_rating_words "ThReE").2.2.1 (by decide),
   (C7_rating_words "six").2.2.2.2.2 (by decide)⟩

/-- C8: category lookup is case-insensitive (the request and the anchor texts
are case-folded) but otherwise exact: two request names equal up to case give
identical crawls, and a request matching no case-folded key — even one that is
a proper prefix of a key — fails with the not-found error. -/
theorem C8_category_lookup_case_insensitive_exact :
    (∀ (site : Site) (a b : String), strLower a = strLower b →
        collect_paths site a = collect_paths site b)
      ∧
    (∀ (site : Site) (cat : String) (idxPg : Page),
        site.fetch indexPath = .ok idxPg →
        (∀ kv ∈ parse_category_paths idxPg, kv.1 ≠ strLower cat) →
        collect_paths site cat = .error .categoryNotFound) := by
  constructor
  · intro site a b h
    unfold collect_paths
    simp only [h]
  · intro site cat idxPg h1 h2
    simp only [collect_paths, h1, dictGet_eq_none h2]

/-- Catalog index page whose only category is "Default Category". -/
def idxPgC8 : Page :=
  ⟨[("Default Category", "../defcat/index.html")], [], none, none, none, none⟩

/-- Site serving only the catalog index page `idxPgC8`. -/
def siteC8 : Site := ⟨fun path =>
  if path = indexPath then .ok idxPgC8 else .error .httpStatus⟩

/-- Witness for C8: "default" and "DEFAULT" crawl identically, and "Default",
a proper prefix of "Default Category", does not match it. -/
theorem C8_category_lookup_case_insensitive_exact_witness :
    collect_paths siteC8 "default" = collect_paths siteC8 "DEFAULT"
      ∧ collect_paths siteC8 "Default" = .error .categoryNotFound :=
  ⟨C8_category_lookup_case_insensitive_exact.1 siteC8 "default" "DEFAULT"
      (by decide),
   C8_category_lookup_case_insensitive_exact.2 siteC8 "Default" idxPgC8
      (by decide) (by decide)⟩

/-- Catalog index page for the C9 site: category "Mystery" at path `myst`. -/
def idxPgC9 : Page := ⟨[("Mystery", "../myst/index.html")], [], none, none, none, none⟩

/-- Listing page of `myst` with the single product path `m1`. -/
def listPgC9 : Page := ⟨[], [some "123456789m1"], none, none, none, none⟩

/-- Detail page whose title element exists but has EMPTY text. -/
def detailPgC9 : Page := ⟨[], [], none, some "", none, none⟩

/-- Site whose single product's detail page has an empty title. -/
def siteC9 : Site := ⟨fun path =>
  if path = indexPath then .ok idxPgC9
  else if path = categoryIndexPath "myst" then .ok listPgC9
  else if path = "m1" then .ok detailPgC9
  else .error .httpStatus⟩

/-- C9: when the mandatory title element is present but its stripped text is
empty, `_parse_product_info` returns `None` — no record and no error — so on
total cohort success the list `scrape` returns can contain null entries. -/
theorem C9_empty_title_yields_none :
    (∀ (pg : Page) (url : String), pg.titleText = some "" →
        parse_product_info pg url = .ok none)
      ∧ scrape siteC9 "Mystery" = .ok (some [none]) := by
  constructor
  · intro pg url h
    simp [parse_product_info, h]
  · decide

/-- Witness for C9: a concrete detail page with an empty title (its rating
element even missing) parses to `None` without an error. -/
theorem C9_empty_title_yields_none_witness :
    parse_product_info detailPgC9 "u" = .ok none :=
  C9_empty_title_yields_none.1 detailPgC9 "u" (by decide)

/-- C10: a requested category whose case-folded key IS in the resolved map
but maps to the empty path string (href no longer than the stripped affixes)
is treated exactly like an absent one: the same falsy test fires and the
crawl fails with the same not-found error. -/
theorem C10_empty_category_path_treated_as_absent
    (site : Site) (cat : String) (idxPg : Page)
    (h1 : site.fetch indexPath = .ok idxPg)
    (h2 : dictGet (parse_category_paths idxPg) (strLower cat) = some "") :
    collect_paths site cat = .error .categoryNotFound := by
  simp only [collect_paths, h1, h2]
  try rfl

/-- Catalog index page whose "Travel" anchor href `../books/x/` is only 11
characters, so stripping 3 + 11 leaves the empty path. -/
def idxPgC10 : Page := ⟨[("Travel", "../books/x/")], [], none, none, none, none⟩

/-- Site serving only the catalog index page `idxPgC10`. -/
def siteC10 : Site := ⟨fun path =>
  if path = indexPath then .ok idxPgC10 else .error .httpStatus⟩

/-- Witness for C10: the key "travel" is present but maps to `""`, and the
crawl fails with the not-found error. -/
theorem C10_empty_category_path_treated_as_absent_witness :
    collect_paths siteC10 "TRAVEL" = .error .categoryNotFound :=
  C10_empty_category_path_treated_as_absent siteC10 "TRAVEL" idxPgC10
    (by decide) (by decide)

end BooksData
